import Mathlib

/-!
Shallow embedding of the Twitch mobile-web UI test harness:
the locator builder (`tools/ui/base/locator.py`), the page-action library
(`tools/ui/base/base_page.py`), the home-page page object
(`tools/ui/screens/home_page.py`), the pytest session fixtures
(`conftest.py`) and the screenshot-filename sanitization of the test case
(`tests/test_twitch.py`).

The external browser-automation layer (Selenium's `WebDriverWait.until`
together with the `expected_conditions` predicates) is modelled as an
environment `Env` of oracles: each oracle answers whether the requested
readiness condition was achieved within the given timeout, returning the
resolved element handle(s) on success and nothing on timeout (in which
case the real `until` raises `TimeoutException`).  Side effects (logging,
DOM interactions, scripts, sleeps, driver lifecycle) are recorded in an
event trace; a computation is a pair of an `Except` result and its trace.
-/

namespace Twitch

/-- Selenium `By` strategies used by the Locator builder (`locator.py`). -/
inductive Strategy
  | cssSelector
  | xpath
  | id
deriving DecidableEq, Repr

/-- Selenium's textual name of each strategy (the value of the `By` constant),
as it appears inside locator tuples and log messages. -/
def Strategy.pyName : Strategy → String
  | .cssSelector => "css selector"
  | .xpath => "xpath"
  | .id => "id"

/-- The `Locator` dataclass of `locator.py`: a strategy plus a selector string.
The Python field is named `by`, a reserved word in Lean, hence `strat`. -/
structure Locator where
  strat : Strategy
  value : String
deriving DecidableEq, Repr

/-- The `(locator.by, locator.value)` tuple form that the page-action library
passes to the Selenium expected conditions. -/
abbrev LocTuple := Strategy × String

def Locator.toTuple (l : Locator) : LocTuple := (l.strat, l.value)

namespace Locators

/-- `Locators.css` of `locator.py`. -/
def css (value : String) : Locator := ⟨Strategy.cssSelector, value⟩

/-- `Locators.xpath` of `locator.py`. -/
def xpath (value : String) : Locator := ⟨Strategy.xpath, value⟩

/-- `Locators.id_` of `locator.py`. -/
def id_ (value : String) : Locator := ⟨Strategy.id, value⟩

end Locators

/-- Resolved on-screen elements (`WebElement`) are modelled as ids. -/
abbrev Handle := Nat

/-- Rendering of a locator tuple inside a Python f-string, as in
`f"... with locator {locator}"` after the tuple conversion. -/
def locTupleStr (l : LocTuple) : String :=
  "('" ++ l.1.pyName ++ "', '" ++ l.2 ++ "')"

/-- Rendering of the `Locator` dataclass inside a Python f-string, used by the
code paths that interpolate the locator before converting it to a tuple. -/
def locatorStr (l : Locator) : String :=
  "Locator(by='" ++ l.strat.pyName ++ "', value='" ++ l.value ++ "')"

/-- The Python exception values that the embedded code can raise. -/
inductive Err
  /-- Selenium `TimeoutException`, raised by `WebDriverWait.until` on timeout. -/
  | timeoutException
  /-- Selenium `NoSuchElementException` from `find_element`. -/
  | noSuchElementException
  /-- Python `AssertionError(msg)`, raised by the wait helpers on timeout. -/
  | assertionError (msg : String)
  /-- A plain Python `Exception(msg)`. -/
  | exception (msg : String)
  /-- Python `IndexError`, e.g. `random.choice` on an empty sequence. -/
  | indexError
deriving DecidableEq, Repr

/-- Observable side effects, in program order. -/
inductive Event
  | logInfo (msg : String)
  | logError (msg : String)
  /-- `WebDriverWait(...).until(ec.visibility_of_element_located(loc))`. -/
  | waitVisible (loc : LocTuple) (t : Nat)
  /-- `WebDriverWait(...).until(ec.presence_of_element_located(loc))`. -/
  | waitPresent (loc : LocTuple) (t : Nat)
  /-- `WebDriverWait(...).until(ec.element_to_be_clickable(locator))`; the
  source passes the `Locator` dataclass through unconverted. -/
  | waitClickable (loc : Locator) (t : Nat)
  /-- `WebDriverWait(...).until(ec.visibility_of_all_elements_located(locator))`. -/
  | waitVisibleAll (loc : Locator) (t : Nat)
  /-- `WebDriverWait(...).until(ec.presence_of_all_elements_located(loc))`. -/
  | waitPresentAll (loc : LocTuple) (t : Nat)
  /-- `WebDriverWait(...).until(ec.invisibility_of_element_located(locator))`. -/
  | waitInvisible (loc : Locator) (t : Nat)
  /-- `time.sleep(secs)`. -/
  | sleepFor (secs : Nat)
  /-- `driver.execute_script(script, *args)`. -/
  | runScript (script : String) (args : List Handle)
  /-- `element.click()`. -/
  | domClick (h : Handle)
  /-- `element.send_keys(text)`. -/
  | sendKeys (h : Handle) (text : String)
  /-- `ActionChains.move_to_element(a).click(b).perform()`. -/
  | hoverAndClick (hoverTarget clickTarget : Handle)
  /-- `webdriver.Chrome(...)` constructed with the given headless flag and
  emulated device. -/
  | browserStart (headless : Bool) (device : String)
  /-- `driver.get(url)`. -/
  | driverGet (url : String)
  /-- `driver.quit()`. -/
  | driverQuit
  /-- `driver.save_screenshot(name)`. -/
  | saveScreenshot (name : String)
deriving DecidableEq, Repr

/-- Oracles for the external Selenium wait layer.  Each field answers one
`WebDriverWait(driver, timeout).until(condition)` call: `some` is the truthy
value `until` returned within the timeout, `none` means the wait timed out
(`TimeoutException`).  `invisibleWithin` is `true` when invisibility was
reached in time.  `isDisplayed` and `textOf` answer the corresponding
`WebElement` property calls. -/
structure Env where
  visibleWithin : LocTuple → Nat → Option Handle
  presentWithin : LocTuple → Nat → Option Handle
  clickableWithin : Locator → Nat → Option Handle
  visibleAllWithin : Locator → Nat → Option (List Handle)
  presentAllWithin : LocTuple → Nat → Option (List Handle)
  invisibleWithin : Locator → Nat → Bool
  isDisplayed : Handle → Bool
  textOf : Handle → String
  /-- `WebDriverWait.until` only returns truthy values, and an empty Python
  list is falsy: a returned element list is necessarily non-empty. -/
  presentAll_ne : ∀ loc t els, presentAllWithin loc t = some els → els ≠ []

/-- A computation of the harness: its Python outcome (normal return or raised
exception) together with the trace of side effects it performed. -/
abbrev M (α : Type) := Except Err α × List Event

/-- Sequencing: on a raised exception the continuation never runs and the
trace so far is kept. -/
def bindM {α β : Type} (x : M α) (f : α → M β) : M β :=
  match x.1 with
  | .ok a => ((f a).1, x.2 ++ (f a).2)
  | .error e => (.error e, x.2)

/-- `self.timeout` set in `BasePageActions.__init__`. -/
def defaultTimeout : Nat := 10

/-- The `if timeout is None: timeout = self.timeout` defaulting pattern. -/
def resolveTimeout (timeout : Option Nat) : Nat :=
  match timeout with
  | none => defaultTimeout
  | some t => t

@[simp] theorem resolveTimeout_some (n : Nat) : resolveTimeout (some n) = n := rfl

/-- Error message of `get_visible_element` on timeout. -/
def visibleNotFoundMsg (loc : LocTuple) (t : Nat) : String :=
  "Cannot find visible element with locator " ++ locTupleStr loc ++
    " within " ++ toString t ++ " seconds"

/-- Error message of `get_present_element` on timeout (the locator has been
converted to tuple form before the message is built). -/
def presentNotFoundMsg (loc : LocTuple) (t : Nat) : String :=
  "Cannot find present element with locator " ++ locTupleStr loc ++
    " within " ++ toString t ++ " seconds"

/-- Error message of `get_clickable_element` on timeout (the locator is still
the dataclass there). -/
def clickableNotFoundMsg (loc : Locator) (t : Nat) : String :=
  "Cannot find clickable element with locator " ++ locatorStr loc ++
    " within " ++ toString t ++ " seconds"

/-- Error message of `get_visible_elements_list` on timeout. -/
def visibleListNotFoundMsg (loc : Locator) (t : Nat) : String :=
  "Cannot find list of visible elements with locator " ++ locatorStr loc ++
    " within " ++ toString t ++ " seconds"

/-- Error message of `get_present_elements_list` on timeout (tuple form). -/
def presentListNotFoundMsg (loc : LocTuple) (t : Nat) : String :=
  "Cannot find list of present elements with locator " ++ locTupleStr loc ++
    " within " ++ toString t ++ " seconds"

/-- Error message of `wait_elements_invisibility` on timeout. -/
def stillVisibleMsg (loc : Locator) (t : Nat) : String :=
  "Element with locator " ++ locatorStr loc ++ " is visible after " ++
    toString t ++ " seconds"

/-- `BasePageActions.get_visible_element`: wait for visibility, converting a
`TimeoutException` into an `AssertionError` carrying locator and timeout;
`show_error_logs` gates only the `logging.error` call. -/
def get_visible_element (env : Env) (locator : Locator) (timeout : Option Nat)
    (show_error_logs : Bool) : M Handle :=
  let loc := locator.toTuple
  let t := resolveTimeout timeout
  let pre := [Event.logInfo ("Browser: Finding  element (visible) with locator " ++ locTupleStr loc),
              Event.waitVisible loc t]
  match env.visibleWithin loc t with
  | some el => (.ok el, pre)
  | none =>
      let error := visibleNotFoundMsg loc t
      (.error (.assertionError error),
        pre ++ (if show_error_logs then [Event.logError error] else []))

/-- `BasePageActions.get_present_element`: the info log interpolates the
dataclass, the tuple conversion happens just before the wait. -/
def get_present_element (env : Env) (locator : Locator) (timeout : Option Nat)
    (show_error_logs : Bool) : M Handle :=
  let t := resolveTimeout timeout
  let loc := locator.toTuple
  let pre := [Event.logInfo ("Browser: Finding element (present) with locator " ++ locatorStr locator),
              Event.waitPresent loc t]
  match env.presentWithin loc t with
  | some el => (.ok el, pre)
  | none =>
      let error := presentNotFoundMsg loc t
      (.error (.assertionError error),
        pre ++ (if show_error_logs then [Event.logError error] else []))

/-- `BasePageActions.get_clickable_element`; its info log says "(present)" in
the source as well, and the locator is passed to the condition unconverted. -/
def get_clickable_element (env : Env) (locator : Locator) (timeout : Option Nat)
    (show_error_logs : Bool) : M Handle :=
  let t := resolveTimeout timeout
  let pre := [Event.logInfo ("Browser: Finding element (present) with locator " ++ locatorStr locator),
              Event.waitClickable locator t]
  match env.clickableWithin locator t with
  | some el => (.ok el, pre)
  | none =>
      let error := clickableNotFoundMsg locator t
      (.error (.assertionError error),
        pre ++ (if show_error_logs then [Event.logError error] else []))

/-- `BasePageActions.get_visible_elements_list`. -/
def get_visible_elements_list (env : Env) (locator : Locator) (timeout : Option Nat)
    (show_error_logs : Bool) : M (List Handle) :=
  let t := resolveTimeout timeout
  let pre := [Event.logInfo ("Browser: Finding multiple elements list (visible) with locator " ++ locatorStr locator),
              Event.waitVisibleAll locator t]
  match env.visibleAllWithin locator t with
  | some els => (.ok els, pre)
  | none =>
      let error := visibleListNotFoundMsg locator t
      (.error (.assertionError error),
        pre ++ (if show_error_logs then [Event.logError error] else []))

/-- `BasePageActions.get_present_elements_list`. -/
def get_present_elements_list (env : Env) (locator : Locator) (timeout : Option Nat)
    (show_error_logs : Bool) : M (List Handle) :=
  let t := resolveTimeout timeout
  let loc := locator.toTuple
  let pre := [Event.logInfo ("Browser: Finding multiple elements list (present) with locator " ++ locatorStr locator),
              Event.waitPresentAll loc t]
  match env.presentAllWithin loc t with
  | some els => (.ok els, pre)
  | none =>
      let error := presentListNotFoundMsg loc t
      (.error (.assertionError error),
        pre ++ (if show_error_logs then [Event.logError error] else []))

/-- `BasePageActions.wait_elements_invisibility`. -/
def wait_elements_invisibility (env : Env) (locator : Locator) (timeout : Option Nat)
    (show_error_logs : Bool) : M Unit :=
  let t := resolveTimeout timeout
  let pre := [Event.logInfo "Browser: Wait till single element is invisible",
              Event.waitInvisible locator t]
  if env.invisibleWithin locator t then (.ok (), pre)
  else
    let error := stillVisibleMsg locator t
    (.error (.assertionError error),
      pre ++ (if show_error_logs then [Event.logError error] else []))

/-- `BasePageActions.__element`, the internal either-locator-or-handle
resolution function: a supplied element is returned as-is; otherwise a
supplied locator is resolved through `get_visible_element`; with neither, a
plain `Exception("Unknown way to define an element")` is raised.  (A passed
`WebElement` or `Locator` dataclass is always truthy in Python, so the
`if element: / elif locator:` chain is a match on the optional arguments.) -/
def __element (env : Env) (locator : Option Locator) (element : Option Handle)
    (timeout : Option Nat) (show_error_logs : Bool) : M Handle :=
  let t := resolveTimeout timeout
  match element with
  | some el => (.ok el, [])
  | none =>
    match locator with
    | some loc => get_visible_element env loc (some t) show_error_logs
    | none => (.error (.exception "Unknown way to define an element"), [])

/-- The `except (TimeoutException, AssertionError)` clause used by the
boolean probes: true exactly on the exception classes it catches. -/
def caughtByProbe : Err → Bool
  | .timeoutException => true
  | .assertionError _ => true
  | _ => false

/-- `BasePageActions.element_is_displayed`: resolve (with error logs off),
call `.is_displayed()`, and convert a caught timeout/assertion failure into
`False`; any other exception propagates. -/
def element_is_displayed (env : Env) (locator : Option Locator) (element : Option Handle)
    (timeout : Option Nat) : M Bool :=
  let t := resolveTimeout timeout
  let pre := [Event.logInfo "Browser: Checking that element is displayed"]
  match __element env locator element (some t) false with
  | (.ok el, evs) => (.ok (env.isDisplayed el), pre ++ evs)
  | (.error e, evs) =>
      if caughtByProbe e then
        (.ok false, pre ++ evs ++ [Event.logInfo "Browser: Element is not found"])
      else (.error e, pre ++ evs)

/-- `BasePageActions.element_is_present`. -/
def element_is_present (env : Env) (locator : Locator) (timeout : Option Nat) : M Bool :=
  let t := resolveTimeout timeout
  let pre := [Event.logInfo ("Browser: Checking that element is present in DOM with locator " ++ locatorStr locator)]
  match get_present_element env locator (some t) false with
  | (.ok _, evs) => (.ok true, pre ++ evs ++ [Event.logInfo "Browser: Element is found"])
  | (.error e, evs) =>
      if caughtByProbe e then
        (.ok false, pre ++ evs ++ [Event.logInfo "Browser: Element is not found"])
      else (.error e, pre ++ evs)

/-- `BasePageActions.element_is_absent`. -/
def element_is_absent (env : Env) (locator : Locator) (timeout : Option Nat) : M Bool :=
  let t := resolveTimeout timeout
  let pre := [Event.logInfo ("Browser: Checking that element is absent in DOM with locator " ++ locatorStr locator)]
  match wait_elements_invisibility env locator (some t) false with
  | (.ok _, evs) => (.ok true, pre ++ evs ++ [Event.logInfo "Browser: Element is absent"])
  | (.error e, evs) =>
      if caughtByProbe e then
        (.ok false, pre ++ evs ++ [Event.logInfo "Browser: Element is present"])
      else (.error e, pre ++ evs)

/-- `BasePageActions.element_is_clickable`; the source has no
`timeout is None` defaulting here and hands the optional timeout straight to
`get_clickable_element`. -/
def element_is_clickable (env : Env) (locator : Locator) (timeout : Option Nat) : M Bool :=
  let pre := [Event.logInfo ("Browser: Checking that element is clickable with locator " ++ locatorStr locator)]
  match get_clickable_element env locator timeout false with
  | (.ok _, evs) => (.ok true, pre ++ evs ++ [Event.logInfo "Browser: Element is clickable"])
  | (.error e, evs) =>
      if caughtByProbe e then
        (.ok false, pre ++ evs ++ [Event.logInfo "Browser: Element is not clickable"])
      else (.error e, pre ++ evs)

/-- `BasePageActions.execute_script`. -/
def execute_script (script : String) (args : List Handle) : M Unit :=
  (.ok (), [Event.logInfo ("Browser: Executing script: " ++ script),
            Event.runScript script args])

/-- `BasePageActions.click_element`. -/
def click_element (env : Env) (locator : Option Locator) (element : Option Handle)
    (timeout : Option Nat) : M Unit :=
  let t := resolveTimeout timeout
  bindM (__element env locator element (some t) true) fun el =>
    (.ok (), [Event.logInfo "Browser: Clicking element", Event.domClick el])

/-- `BasePageActions.get_text`. -/
def get_text (env : Env) (locator : Option Locator) (element : Option Handle)
    (timeout : Option Nat) : M String :=
  let t := resolveTimeout timeout
  bindM (__element env locator element (some t) true) fun el =>
    (.ok (env.textOf el), [Event.logInfo "Browser: Getting element text"])

/-- `BasePageActions.input_to_element`. -/
def input_to_element (env : Env) (locator : Option Locator) (element : Option Handle)
    (input_text : String) (timeout : Option Nat) (log_input : Bool) : M Unit :=
  let t := resolveTimeout timeout
  bindM (__element env locator element (some t) true) fun el =>
    (.ok (), [(if log_input then
                 Event.logInfo ("Browser: making input to element: '" ++ input_text ++ "'")
               else Event.logInfo "Browser: making input to element: (hidden input)"),
              Event.sendKeys el input_text])

/-- The script of `scroll_into_element_center`. -/
def scrollCenterScript : String := "arguments[0].scrollIntoView(\x7bblock: 'center'\x7d);"

/-- `BasePageActions.scroll_into_element_center`. -/
def scroll_into_element_center (env : Env) (locator : Option Locator) (element : Option Handle)
    (timeout : Option Nat) : M Unit :=
  let t := resolveTimeout timeout
  bindM (__element env locator element (some t) true) fun el =>
    bindM (execute_script scrollCenterScript [el]) fun _ =>
      (.ok (), [Event.logInfo "Browser: Scroll to element center"])

/-- The script of `scroll_down`: one viewport height. -/
def scrollDownScript : String := "window.scrollBy(0, window.innerHeight);"

/-- `BasePageActions.scroll_down`. -/
def scroll_down : M Unit := execute_script scrollDownScript []

/-- `BasePageActions.moveto_and_click_element`: resolve the hover target,
then the click target, and only then perform the combined ActionChains
gesture.  The optional timeouts are handed to `__element` undefaulted, which
defaults them itself. -/
def moveto_and_click_element (env : Env)
    (locator_to_move : Option Locator) (element_to_move : Option Handle) (timeout_to_move : Option Nat)
    (locator_to_click : Option Locator) (element_to_click : Option Handle) (timeout_to_click : Option Nat) :
    M Unit :=
  bindM (__element env locator_to_move element_to_move timeout_to_move true) fun a =>
    bindM (__element env locator_to_click element_to_click timeout_to_click true) fun b =>
      (.ok (), [Event.logInfo "Browser: Move to element A (hover) and click element B",
                Event.hoverAndClick a b])

/-- `time.sleep(secs)`. -/
def sleepM (secs : Nat) : M Unit := (.ok (), [Event.sleepFor secs])

namespace HomePage

/-- `self.search_button` of `HomePage.__init__`. -/
def search_button : Locator := Locators.css "a[aria-label=\"Search\"]"

/-- `self.page_logo`. -/
def page_logo : Locator := Locators.css "a[interactioncontent=\"logo\"]"

/-- `self.search_field`. -/
def search_field : Locator := Locators.css "input[type=\"search\"]"

/-- `self.search_result_elements`. -/
def search_result_elements : Locator :=
  Locators.xpath "//*[starts-with(@class, \"ScAspectSpacer-sc-\")]/parent::div"

/-- `self.stream_list_elements`. -/
def stream_list_elements : Locator :=
  Locators.xpath "//*[starts-with(@class, \"tw-image\")]/parent::div"

/-- `self.stream_live_label`. -/
def stream_live_label : Locator := Locators.css "div[class^='ScChannelStatusTextIndicator']"

/-- `self.start_watching_button`. -/
def start_watching_button : Locator :=
  Locators.css "button[data-a-target=\"content-classification-gate-overlay-start-watching-button\"]"

/-- `self.folow_button` (spelling as in the source). -/
def folow_button : Locator :=
  Locators.css "button[data-a-target=\"game-directory-follow-button\"]"

end HomePage

/-- `random.choice(seq)`: pick `seq[randbelow(len(seq))]`; an empty sequence
raises `IndexError`.  The random draw is supplied as the `rng` argument and
reduced modulo the length, so a draw uniform on `0, ..., len-1` selects each
index with equal probability. -/
def random_choice (els : List Handle) (rng : Nat) : M Handle :=
  match els with
  | [] => (.error .indexError, [])
  | e :: rest =>
      (.ok ((e :: rest).get ⟨rng % (e :: rest).length, Nat.mod_lt _ (Nat.succ_pos _)⟩), [])

/-- `HomePage.click_random_stream`: wait 3 time-units for the present stream
cards, choose one at random, scroll it to center, click it. -/
def click_random_stream (env : Env) (rng : Nat) : M Unit :=
  bindM (get_present_elements_list env HomePage.stream_list_elements (some 3) true) fun els =>
  bindM (random_choice els rng) fun random_el =>
  bindM (scroll_into_element_center env none (some random_el) none) fun _ =>
  click_element env none (some random_el) none

/-- The `for _ in range(times): self.scroll_down()` loop. -/
def scroll_loop : Nat → M Unit
  | 0 => (.ok (), [])
  | n + 1 => bindM scroll_down fun _ => scroll_loop n

/-- `HomePage.scroll_home_screen`: wait 7 time-units for the follow-button
landmark, sleep 2, then `times` scroll steps. -/
def scroll_home_screen (env : Env) (times : Nat) : M Unit :=
  bindM (get_present_element env HomePage.folow_button (some 7) true) fun _ =>
  bindM (sleepM 2) fun _ =>
  scroll_loop times

/-- Python's `\w` on the ASCII range (all strings this harness builds its
filenames from are ASCII): letters, digits and underscore.  `\W` is its
complement. -/
def isWordChar (c : Char) : Bool := c.isAlphanum || c == '_'

/-- `re.sub(r'\W+', '_', s)` over the character list: the flag records
whether the previous character was part of a non-word run already replaced
by an underscore. -/
def subNonWordAux : Bool → List Char → List Char
  | _, [] => []
  | prevNonWord, c :: rest =>
      if isWordChar c then c :: subNonWordAux false rest
      else if prevNonWord then subNonWordAux true rest
      else '_' :: subNonWordAux true rest

/-- `re.sub(r'\W+', '_', s)` as performed on `filename` in
`test_search_starcraft_streamer`. -/
def re_sub_nonword (s : String) : String := ⟨subNonWordAux false s.data⟩

/-- `f"{self.ui.device_name}_{self.ui.environment}_{datetime.datetime.now()}"`. -/
def mkFilename (device environment timestamp : String) : String :=
  device ++ "_" ++ environment ++ "_" ++ timestamp

/-- The full screenshot artifact name `f"{cleaned_filename}.png"`. -/
def screenshot_filename (device environment timestamp : String) : String :=
  re_sub_nonword (mkFilename device environment timestamp) ++ ".png"

/-- Spec-side rendering of the claim's wording for C9: every maximal run of
non-ALPHANUMERIC characters (underscore included in the runs) collapsed to a
single underscore.  Defined from the claim, to be compared with
`re_sub_nonword`, which is defined from the code. -/
def specCollapseNonAlnumAux : Bool → List Char → List Char
  | _, [] => []
  | prevRun, c :: rest =>
      if c.isAlphanum then c :: specCollapseNonAlnumAux false rest
      else if prevRun then specCollapseNonAlnumAux true rest
      else '_' :: specCollapseNonAlnumAux true rest

/-- String form of `specCollapseNonAlnumAux` (the claim's wording for C9). -/
def specCollapseNonAlnum (s : String) : String := ⟨specCollapseNonAlnumAux false s.data⟩

theorem length_dropWhile_le (p : Char → Bool) (l : List Char) :
    (l.dropWhile p).length ≤ l.length := by
  induction l with
  | nil => simp [List.dropWhile]
  | cons c rest ih =>
      rw [List.dropWhile_cons]
      by_cases hp : p c
      · simp only [hp, if_true]
        exact Nat.le_succ_of_le ih
      · simp [hp]

/-- Spec-side formulation of the amended C9 wording: at the head of a maximal
run of characters outside `[A-Za-z0-9_]`, emit one underscore and skip the
rest of the run. -/
def specCollapseNonWord : List Char → List Char
  | [] => []
  | c :: rest =>
      if isWordChar c then c :: specCollapseNonWord rest
      else '_' :: specCollapseNonWord (rest.dropWhile fun d => !(isWordChar d))
termination_by l => l.length
decreasing_by
  · simp only [List.length_cons]
    omega
  · simp only [List.length_cons]
    have := length_dropWhile_le (fun d => !(isWordChar d)) rest
    omega

/-- `pytest_addoption` of `conftest.py` declares `--is_local` with
`action="store_true"` and `default=True`; under argparse store-true
semantics the parsed value is `True` when the flag appears on the command
line and the default otherwise. -/
def storeTrueValue (defaultVal flagPresent : Bool) : Bool :=
  if flagPresent then true else defaultVal

/-- The value of `request.config.getoption("--is_local")` as a function of
whether `--is_local` was passed on the command line. -/
def is_local_option (flagPresent : Bool) : Bool := storeTrueValue true flagPresent

/-- The Chrome options assembled by `Browser.chrome` (`browser.py`): mobile
emulation is set exactly when a device name is given, and `--headless` is
added exactly when `is_headless` holds. -/
structure ChromeOptions where
  mobileEmulation : Option String
  arguments : List String
deriving DecidableEq, Repr

/-- `Browser.chrome`'s option assembly. -/
def chrome_options (is_headless : Bool) (device_name : Option String) : ChromeOptions :=
  { mobileEmulation := device_name
    arguments := if is_headless then ["--headless"] else [] }

/-- The `driver` fixture of `conftest.py` combined with pytest's
yield-fixture contract: the setup code runs, the test body runs, and the
teardown code after the `yield` (here `driver_instance.quit()`) runs whether
the body returned normally or raised.  The body is an arbitrary computation
using the driver; the fixture's outcome is the body's outcome. -/
def driver_fixture (url : String) (flagPresent : Bool) (device_name : String)
    (body : M Unit) : M Unit :=
  (body.1,
    Event.browserStart (!(is_local_option flagPresent)) device_name ::
      Event.driverGet url :: (body.2 ++ [Event.driverQuit]))

/-- The spec's failure taxonomy (spec section 7), used to state claims that
speak about failure classes.  `AssertionError` is the harness's
ElementNotFound class (every wait helper raises it on timeout); the plain
`Exception` with the `__element` message is its UsageError class; nothing in
the code raises a distinct NoCandidates-class signal. -/
inductive FailureClass
  | elementNotFound
  | usageError
  | unsupportedBrowser
  | noCandidates
  | indexing
  | other
deriving DecidableEq, Repr

/-- Classify a raised exception into the spec's taxonomy. -/
def failureClass : Err → FailureClass
  | .assertionError _ => .elementNotFound
  | .exception msg =>
      if msg = "Unknown way to define an element" then .usageError
      else if msg = "Unsupported browser chrome" then .unsupportedBrowser
      else .other
  | .indexError => .indexing
  | _ => .other

/-- An environment in which no wait condition is ever achieved: every
element is absent and nothing ever becomes invisible (the page never
settles).  Used to witness the timeout paths. -/
def envNever : Env where
  visibleWithin := fun _ _ => none
  presentWithin := fun _ _ => none
  clickableWithin := fun _ _ => none
  visibleAllWithin := fun _ _ => none
  presentAllWithin := fun _ _ => none
  invisibleWithin := fun _ _ => false
  isDisplayed := fun _ => false
  textOf := fun _ => ""
  presentAll_ne := fun _ _ _ h => Option.noConfusion h

/-- An environment in which every wait succeeds immediately; the
present-elements list has three entries. -/
def envReady : Env where
  visibleWithin := fun _ _ => some 1
  presentWithin := fun _ _ => some 2
  clickableWithin := fun _ _ => some 3
  visibleAllWithin := fun _ _ => some [4, 5]
  presentAllWithin := fun _ _ => some [6, 7, 8]
  invisibleWithin := fun _ _ => true
  isDisplayed := fun _ => true
  textOf := fun _ => "text"
  presentAll_ne := fun _ _ els h => by
    injection h with h2
    intro hnil
    rw [hnil] at h2
    cases h2

/-- C1: for every locator and every timeout, each boolean probe
(`element_is_present`, `element_is_displayed`, `element_is_clickable`,
`element_is_absent`) called against a target whose wait condition is never
achieved within the timeout returns `False` instead of raising: the
timeout-born `AssertionError` of the underlying wait helper is caught and
converted to the boolean result. -/
theorem c1_boolean_probes_false_on_unready (env : Env) (loc : Locator) (t : Option Nat)
    (hp : env.presentWithin loc.toTuple (resolveTimeout t) = none)
    (hv : env.visibleWithin loc.toTuple (resolveTimeout t) = none)
    (hc : env.clickableWithin loc (resolveTimeout t) = none)
    (hi : env.invisibleWithin loc (resolveTimeout t) = false) :
    (element_is_present env loc t).1 = .ok false ∧
    (element_is_displayed env (some loc) none t).1 = .ok false ∧
    (element_is_clickable env loc t).1 = .ok false ∧
    (element_is_absent env loc t).1 = .ok false := by
  refine ⟨?_, ?_, ?_, ?_⟩
  · simp [element_is_present, get_present_element, hp, caughtByProbe]
  · simp [element_is_displayed, __element, get_visible_element, hv, caughtByProbe]
  · simp [element_is_clickable, get_clickable_element, hc, caughtByProbe]
  · simp [element_is_absent, wait_elements_invisibility, hi, caughtByProbe]

/-- C1 witness: in the environment where nothing ever becomes ready, the
four probes on the home-page logo locator all return `False`. -/
theorem c1_witness :
    (element_is_present envNever HomePage.page_logo none).1 = .ok false ∧
    (element_is_displayed envNever (some HomePage.page_logo) none none).1 = .ok false ∧
    (element_is_clickable envNever HomePage.page_logo none).1 = .ok false ∧
    (element_is_absent envNever HomePage.page_logo none).1 = .ok false :=
  c1_boolean_probes_false_on_unready envNever HomePage.page_logo none rfl rfl rfl rfl

/-- C2: every resolve operation (`get_visible_element`, `get_present_element`,
`get_clickable_element` and the two list variants) raises, on timeout, the
harness's ElementNotFound-class failure — an `AssertionError` whose message
is built from the locator and the effective timeout — and the
`show_error_logs` flag never changes what is raised (for any environment and
flag value, the returned outcome is the same as with the flag set). -/
theorem c2_resolve_timeout_raises_with_locator_and_timeout (env : Env) (loc : Locator)
    (t : Option Nat) (b : Bool)
    (hv : env.visibleWithin loc.toTuple (resolveTimeout t) = none)
    (hp : env.presentWithin loc.toTuple (resolveTimeout t) = none)
    (hc : env.clickableWithin loc (resolveTimeout t) = none)
    (hva : env.visibleAllWithin loc (resolveTimeout t) = none)
    (hpa : env.presentAllWithin loc.toTuple (resolveTimeout t) = none) :
    ((get_visible_element env loc t b).1 =
      .error (.assertionError (visibleNotFoundMsg loc.toTuple (resolveTimeout t))) ∧
     (get_present_element env loc t b).1 =
      .error (.assertionError (presentNotFoundMsg loc.toTuple (resolveTimeout t))) ∧
     (get_clickable_element env loc t b).1 =
      .error (.assertionError (clickableNotFoundMsg loc (resolveTimeout t))) ∧
     (get_visible_elements_list env loc t b).1 =
      .error (.assertionError (visibleListNotFoundMsg loc (resolveTimeout t))) ∧
     (get_present_elements_list env loc t b).1 =
      .error (.assertionError (presentListNotFoundMsg loc.toTuple (resolveTimeout t)))) ∧
    (∀ (env' : Env) (b' : Bool),
     (get_visible_element env' loc t b').1 = (get_visible_element env' loc t true).1 ∧
     (get_present_element env' loc t b').1 = (get_present_element env' loc t true).1 ∧
     (get_clickable_element env' loc t b').1 = (get_clickable_element env' loc t true).1 ∧
     (get_visible_elements_list env' loc t b').1 = (get_visible_elements_list env' loc t true).1 ∧
     (get_present_elements_list env' loc t b').1 = (get_present_elements_list env' loc t true).1) := by
  refine ⟨⟨?_, ?_, ?_, ?_, ?_⟩, ?_⟩
  · simp [get_visible_element, hv]
  · simp [get_present_element, hp]
  · simp [get_clickable_element, hc]
  · simp [get_visible_elements_list, hva]
  · simp [get_present_elements_list, hpa]
  · intro env' b'
    refine ⟨?_, ?_, ?_, ?_, ?_⟩
    · cases h : env'.visibleWithin loc.toTuple (resolveTimeout t) <;>
        simp [get_visible_element, h]
    · cases h : env'.presentWithin loc.toTuple (resolveTimeout t) <;>
        simp [get_present_element, h]
    · cases h : env'.clickableWithin loc (resolveTimeout t) <;>
        simp [get_clickable_element, h]
    · cases h : env'.visibleAllWithin loc (resolveTimeout t) <;>
        simp [get_visible_elements_list, h]
    · cases h : env'.presentAllWithin loc.toTuple (resolveTimeout t) <;>
        simp [get_present_elements_list, h]

/-- C2 witness: in the never-ready environment, each resolver raises the
`AssertionError` carrying the search-field locator and the timeout `3`, with
error logging suppressed. -/
theorem c2_witness :
    ((get_visible_element envNever HomePage.search_field (some 3) false).1 =
      .error (.assertionError (visibleNotFoundMsg HomePage.search_field.toTuple 3)) ∧
     (get_present_element envNever HomePage.search_field (some 3) false).1 =
      .error (.assertionError (presentNotFoundMsg HomePage.search_field.toTuple 3)) ∧
     (get_clickable_element envNever HomePage.search_field (some 3) false).1 =
      .error (.assertionError (clickableNotFoundMsg HomePage.search_field 3)) ∧
     (get_visible_elements_list envNever HomePage.search_field (some 3) false).1 =
      .error (.assertionError (visibleListNotFoundMsg HomePage.search_field 3)) ∧
     (get_present_elements_list envNever HomePage.search_field (some 3) false).1 =
      .error (.assertionError (presentListNotFoundMsg HomePage.search_field.toTuple 3))) ∧
    (∀ (env' : Env) (b' : Bool),
     (get_visible_element env' HomePage.search_field (some 3) b').1 =
       (get_visible_element env' HomePage.search_field (some 3) true).1 ∧
     (get_present_element env' HomePage.search_field (some 3) b').1 =
       (get_present_element env' HomePage.search_field (some 3) true).1 ∧
     (get_clickable_element env' HomePage.search_field (some 3) b').1 =
       (get_clickable_element env' HomePage.search_field (some 3) true).1 ∧
     (get_visible_elements_list env' HomePage.search_field (some 3) b').1 =
       (get_visible_elements_list env' HomePage.search_field (some 3) true).1 ∧
     (get_present_elements_list env' HomePage.search_field (some 3) b').1 =
       (get_present_elements_list env' HomePage.search_field (some 3) true).1) :=
  c2_resolve_timeout_raises_with_locator_and_timeout envNever HomePage.search_field
    (some 3) false rfl rfl rfl rfl rfl

/-- C3: when neither a locator nor an element handle is supplied, the
internal resolution function `__element` raises the UsageError-class failure
(the plain `Exception("Unknown way to define an element")`), and the
operations funnelling through it — `click_element`, `get_text`, and even the
boolean probe `element_is_displayed`, whose except-clause catches only
timeout/assertion failures — propagate it to the caller. -/
theorem c3_neither_locator_nor_element_raises_usage_error (env : Env) (t : Option Nat)
    (b : Bool) :
    (__element env none none t b).1 = .error (.exception "Unknown way to define an element") ∧
    failureClass (.exception "Unknown way to define an element") = .usageError ∧
    (click_element env none none t).1 = .error (.exception "Unknown way to define an element") ∧
    (get_text env none none t).1 = .error (.exception "Unknown way to define an element") ∧
    (element_is_displayed env none none t).1 =
      .error (.exception "Unknown way to define an element") := by
  refine ⟨rfl, rfl, ?_, ?_, ?_⟩
  · simp [click_element, __element, bindM]
  · simp [get_text, __element, bindM]
  · simp [element_is_displayed, __element, caughtByProbe]

/-- C4: whenever an element handle is supplied — also when a locator is
supplied alongside it — `__element` returns that handle unchanged, performs
no wait and records no event at all: the handle takes precedence over the
locator. -/
theorem c4_supplied_handle_returned_without_wait (env : Env) (locator : Option Locator)
    (el : Handle) (t : Option Nat) (b : Bool) :
    __element env locator (some el) t b = (.ok el, []) := rfl

/-- The element `random_choice` picks from a non-empty candidate list. -/
def pickedElement (e : Handle) (rest : List Handle) (rng : Nat) : Handle :=
  (e :: rest).get ⟨rng % (e :: rest).length, Nat.mod_lt _ (Nat.succ_pos _)⟩

/-- C5 counterexample: in the environment where no stream card ever becomes
present, `click_random_stream` raises the ElementNotFound-class timeout
`AssertionError` of `get_present_elements_list` — a failure class distinct
from any NoCandidates-class signal (the code never raises one), refuting the
claim that an empty candidate list yields an explicit NoCandidates-class
failure. -/
theorem c5_counterexample :
    (click_random_stream envNever 0).1 =
      .error (.assertionError (presentListNotFoundMsg HomePage.stream_list_elements.toTuple 3)) ∧
    failureClass
        (.assertionError (presentListNotFoundMsg HomePage.stream_list_elements.toTuple 3)) =
      .elementNotFound ∧
    FailureClass.elementNotFound ≠ FailureClass.noCandidates := by
  refine ⟨?_, rfl, by decide⟩
  simp [click_random_stream, get_present_elements_list, envNever, bindM]

/-- C5 (amended): when the candidate stream-card list resolved within
3 time-units is non-empty, `click_random_stream` picks the candidate at
index `rng mod length` — the identity on indices for a draw below the
length, hence a uniform draw over the candidates — scrolls it to center and
then clicks it; when the list never becomes non-empty within 3 time-units,
it raises the ElementNotFound-class timeout failure of the underlying wait
(not an indexing failure): the random choice is never reached with an empty
list. -/
theorem c5_click_random_stream_correct (env : Env) (rng : Nat) :
    (∀ e rest,
      env.presentAllWithin HomePage.stream_list_elements.toTuple 3 = some (e :: rest) →
      click_random_stream env rng =
        (.ok (),
         [Event.logInfo ("Browser: Finding multiple elements list (present) with locator " ++
            locatorStr HomePage.stream_list_elements),
          Event.waitPresentAll HomePage.stream_list_elements.toTuple 3,
          Event.logInfo ("Browser: Executing script: " ++ scrollCenterScript),
          Event.runScript scrollCenterScript [pickedElement e rest rng],
          Event.logInfo "Browser: Scroll to element center",
          Event.logInfo "Browser: Clicking element",
          Event.domClick (pickedElement e rest rng)]) ∧
      pickedElement e rest rng ∈ e :: rest ∧
      (rng < (e :: rest).length → pickedElement e rest rng = (e :: rest).getD rng 0)) ∧
    (env.presentAllWithin HomePage.stream_list_elements.toTuple 3 = none →
      (click_random_stream env rng).1 =
        .error (.assertionError (presentListNotFoundMsg HomePage.stream_list_elements.toTuple 3))) := by
  constructor
  · intro e rest hsome
    refine ⟨?_, ?_, ?_⟩
    · simp [click_random_stream, get_present_elements_list, hsome, bindM, random_choice,
        scroll_into_element_center, __element, execute_script, click_element, pickedElement]
    · exact List.get_mem _ _ _
    · intro hlt
      have hm : rng % (rest.length + 1) = rng := Nat.mod_eq_of_lt (by simpa using hlt)
      simp [pickedElement, hm, List.getD_eq_getElem?_getD, List.getElem?_eq_getElem hlt]
  · intro hnone
    simp [click_random_stream, get_present_elements_list, hnone, bindM]

/-- C5 witness: with three candidate stream cards and the draw `1`, the
middle card is scrolled to center and clicked; with no candidates the
ElementNotFound-class failure is raised. -/
theorem c5_witness :
    (click_random_stream envReady 1 =
        (.ok (),
         [Event.logInfo ("Browser: Finding multiple elements list (present) with locator " ++
            locatorStr HomePage.stream_list_elements),
          Event.waitPresentAll HomePage.stream_list_elements.toTuple 3,
          Event.logInfo ("Browser: Executing script: " ++ scrollCenterScript),
          Event.runScript scrollCenterScript [pickedElement 6 [7, 8] 1],
          Event.logInfo "Browser: Scroll to element center",
          Event.logInfo "Browser: Clicking element",
          Event.domClick (pickedElement 6 [7, 8] 1)]) ∧
      pickedElement 6 [7, 8] 1 ∈ [6, 7, 8] ∧
      (1 < ([6, 7, 8] : List Handle).length → pickedElement 6 [7, 8] 1 = [6, 7, 8].getD 1 0)) ∧
    (click_random_stream envNever 5).1 =
      .error (.assertionError (presentListNotFoundMsg HomePage.stream_list_elements.toTuple 3)) :=
  ⟨(c5_click_random_stream_correct envReady 1).1 6 [7, 8] rfl,
   (c5_click_random_stream_correct envNever 5).2 rfl⟩

/-- Resolving a target through `__element` never performs the ActionChains
hover-and-click gesture: its trace holds only log and wait events. -/
theorem hover_not_in_resolve_trace (env : Env) (locator : Option Locator)
    (element : Option Handle) (t : Option Nat) (b : Bool) (a c : Handle) :
    Event.hoverAndClick a c ∉ (__element env locator element t b).2 := by
  cases element with
  | some el => simp [__element]
  | none =>
    cases locator with
    | none => simp [__element]
    | some loc =>
      simp only [__element]
      cases h : env.visibleWithin loc.toTuple (resolveTimeout t) <;>
        cases b <;> simp [get_visible_element, h]

/-- C6: `moveto_and_click_element` resolves the hover target and then the
click target before performing any gesture: when resolution of the click
target fails, the whole operation fails and its trace holds no
hover-and-click interaction at all; when both resolutions succeed, the
single ActionChains gesture is performed last, after both resolutions. -/
theorem c6_moveto_and_click_resolves_both_before_acting (env : Env)
    (lm : Option Locator) (em : Option Handle) (tm : Option Nat)
    (lc : Option Locator) (ecl : Option Handle) (tc : Option Nat) :
    (∀ e, (__element env lc ecl tc true).1 = .error e →
      (∃ e', (moveto_and_click_element env lm em tm lc ecl tc).1 = .error e') ∧
      ∀ a b, Event.hoverAndClick a b ∉ (moveto_and_click_element env lm em tm lc ecl tc).2) ∧
    (∀ a b, (__element env lm em tm true).1 = .ok a →
      (__element env lc ecl tc true).1 = .ok b →
      moveto_and_click_element env lm em tm lc ecl tc =
        (.ok (), (__element env lm em tm true).2 ++ (__element env lc ecl tc true).2 ++
          [Event.logInfo "Browser: Move to element A (hover) and click element B",
           Event.hoverAndClick a b])) := by
  constructor
  · intro e he
    constructor
    · cases hm : (__element env lm em tm true).1 with
      | error e0 => exact ⟨e0, by simp [moveto_and_click_element, bindM, hm]⟩
      | ok a => exact ⟨e, by simp [moveto_and_click_element, bindM, hm, he]⟩
    · intro a b
      cases hm : (__element env lm em tm true).1 with
      | error e0 =>
          simp only [moveto_and_click_element, bindM, hm]
          exact hover_not_in_resolve_trace env lm em tm true a b
      | ok a0 =>
          simp only [moveto_and_click_element, bindM, hm, he, List.mem_append]
          push_neg
          exact ⟨hover_not_in_resolve_trace env lm em tm true a b,
                 hover_not_in_resolve_trace env lc ecl tc true a b⟩
  · intro a b hma hcb
    simp [moveto_and_click_element, bindM, hma, hcb]

/-- C6 witness: with an unresolvable click-target locator the operation
fails with no hover gesture in its trace; with both targets supplied as
handles the gesture is performed once, after both resolutions. -/
theorem c6_witness :
    ((∃ e', (moveto_and_click_element envNever none (some 1) none
        (some HomePage.search_button) none none).1 = .error e') ∧
     ∀ a b, Event.hoverAndClick a b ∉
       (moveto_and_click_element envNever none (some 1) none
         (some HomePage.search_button) none none).2) ∧
    moveto_and_click_element envReady none (some 1) none none (some 2) none =
      (.ok (), (__element envReady none (some 1) none true).2 ++
        (__element envReady none (some 2) none true).2 ++
        [Event.logInfo "Browser: Move to element A (hover) and click element B",
         Event.hoverAndClick 1 2]) :=
  ⟨(c6_moveto_and_click_resolves_both_before_acting envNever none (some 1) none
      (some HomePage.search_button) none none).1
      (.assertionError (visibleNotFoundMsg HomePage.search_button.toTuple 10)) rfl,
   (c6_moveto_and_click_resolves_both_before_acting envReady none (some 1) none
      none (some 2) none).2 1 2 rfl rfl⟩

/-- C7: for every test session, provided the body itself never calls the
driver's close operation, the `driver` fixture's trace contains
`driver.quit()` exactly once — whether the body returned normally or raised
(the fixture's outcome is the body's outcome, and the teardown after the
`yield` runs on both exit paths). -/
theorem c7_driver_quit_exactly_once (url : String) (flagPresent : Bool)
    (device : String) (body : M Unit)
    (h : body.2.count Event.driverQuit = 0) :
    (driver_fixture url flagPresent device body).2.count Event.driverQuit = 1 ∧
    (driver_fixture url flagPresent device body).1 = body.1 := by
  refine ⟨?_, rfl⟩
  simp [driver_fixture, List.count_cons, List.count_append, h]

/-- C7 witness: a normally-completing body and a raising body each yield a
session trace with exactly one `driver.quit()`. -/
theorem c7_witness :
    (driver_fixture "https://m.twitch.tv" true "iPhone X" (.ok (), [])).2.count
      Event.driverQuit = 1 ∧
    (driver_fixture "https://m.twitch.tv" true "iPhone X"
      (.error (.assertionError "Twitch home page did not load properly."), [])).2.count
      Event.driverQuit = 1 :=
  ⟨(c7_driver_quit_exactly_once "https://m.twitch.tv" true "iPhone X" (.ok (), []) rfl).1,
   (c7_driver_quit_exactly_once "https://m.twitch.tv" true "iPhone X"
      (.error (.assertionError "Twitch home page did not load properly."), []) rfl).1⟩

/-- The events of one `scroll_down` step. -/
def scrollStepEvents : List Event :=
  [Event.logInfo ("Browser: Executing script: " ++ scrollDownScript),
   Event.runScript scrollDownScript []]

theorem scroll_loop_trace (n : Nat) :
    scroll_loop n = (.ok (), (List.replicate n scrollStepEvents).flatten) := by
  induction n with
  | zero => rfl
  | succ k ih =>
      simp [scroll_loop, bindM, scroll_down, execute_script, ih, scrollStepEvents,
        List.replicate_succ]

theorem count_scroll_block :
    scrollStepEvents.count (Event.runScript scrollDownScript []) = 1 := by decide

theorem count_scroll_steps (n : Nat) :
    ((List.replicate n scrollStepEvents).flatten).count (Event.runScript scrollDownScript []) = n := by
  induction n with
  | zero => rfl
  | succ k ih =>
      rw [List.replicate_succ, List.flatten_cons, List.count_append, ih, count_scroll_block]
      omega

/-- C8: for every `times`, `scroll_home_screen` first waits (up to 7
time-units) for the follow-button landmark to be present, then sleeps the
fixed 2 time-units, then performs exactly `times` scroll steps, each running
the one-viewport `window.scrollBy(0, window.innerHeight)` script; the trace
contains exactly `times` such script executions. -/
theorem c8_scroll_home_screen_steps (env : Env) (times : Nat) (h : Handle)
    (hp : env.presentWithin HomePage.folow_button.toTuple 7 = some h) :
    scroll_home_screen env times =
      (.ok (),
       [Event.logInfo ("Browser: Finding element (present) with locator " ++
          locatorStr HomePage.folow_button),
        Event.waitPresent HomePage.folow_button.toTuple 7,
        Event.sleepFor 2] ++ (List.replicate times scrollStepEvents).flatten) ∧
    (scroll_home_screen env times).2.count (Event.runScript scrollDownScript []) = times := by
  have htrace : scroll_home_screen env times =
      (.ok (),
       [Event.logInfo ("Browser: Finding element (present) with locator " ++
          locatorStr HomePage.folow_button),
        Event.waitPresent HomePage.folow_button.toTuple 7,
        Event.sleepFor 2] ++ (List.replicate times scrollStepEvents).flatten) := by
    simp [scroll_home_screen, get_present_element, hp, bindM, sleepM, scroll_loop_trace]
  refine ⟨htrace, ?_⟩
  rw [htrace]
  simp [List.count_cons, List.count_append, count_scroll_steps]

/-- C8 witness: in the all-ready environment, two requested scrolls yield
the wait, the settle sleep and exactly two viewport scroll steps. -/
theorem c8_witness :
    scroll_home_screen envReady 2 =
      (.ok (),
       [Event.logInfo ("Browser: Finding element (present) with locator " ++
          locatorStr HomePage.folow_button),
        Event.waitPresent HomePage.folow_button.toTuple 7,
        Event.sleepFor 2] ++ (List.replicate 2 scrollStepEvents).flatten) ∧
    (scroll_home_screen envReady 2).2.count (Event.runScript scrollDownScript []) = 2 :=
  c8_scroll_home_screen_steps envReady 2 2 rfl

theorem subNonWordAux_chars (b : Bool) (l : List Char) :
    ∀ c ∈ subNonWordAux b l, isWordChar c := by
  induction l generalizing b with
  | nil => intro c hc; simp [subNonWordAux] at hc
  | cons d rest ih =>
      intro c hc
      by_cases hw : isWordChar d
      · simp only [subNonWordAux, hw, if_true, List.mem_cons] at hc
        rcases hc with rfl | hc
        · exact hw
        · exact ih false c hc
      · cases b
        · simp only [subNonWordAux, hw, Bool.false_eq_true, if_false, List.mem_cons] at hc
          rcases hc with rfl | hc
          · decide
          · exact ih true c hc
        · simp only [subNonWordAux, hw, Bool.false_eq_true, if_false, if_true] at hc
          exact ih true c hc

theorem subNonWordAux_eq_spec (l : List Char) :
    subNonWordAux false l = specCollapseNonWord l ∧
    subNonWordAux true l = specCollapseNonWord (l.dropWhile fun d => !(isWordChar d)) := by
  induction l with
  | nil => constructor <;> simp [subNonWordAux, specCollapseNonWord]
  | cons d rest ih =>
      by_cases hw : isWordChar d
      · constructor
        · simp [subNonWordAux, specCollapseNonWord, hw, ih.1]
        · simp [subNonWordAux, specCollapseNonWord, List.dropWhile_cons, hw, ih.1]
      · constructor
        · simp [subNonWordAux, specCollapseNonWord, hw, ih.2]
        · simp [subNonWordAux, specCollapseNonWord, List.dropWhile_cons, hw, ih.2]

/-- C9 counterexample: for device name `"a_ b"` (an underscore directly
followed by a space: a maximal run of two non-ALPHANUMERIC characters), the
generated filename keeps two consecutive underscores — the run is not
collapsed to a single underscore as the claim's wording demands, because the
code's `re.sub` pattern treats the underscore as a word character. -/
theorem c9_counterexample :
    re_sub_nonword (mkFilename "a_ b" "staging" "t") = "a__b_staging_t" ∧
    specCollapseNonAlnum (mkFilename "a_ b" "staging" "t") = "a_b_staging_t" ∧
    re_sub_nonword (mkFilename "a_ b" "staging" "t") ≠
      specCollapseNonAlnum (mkFilename "a_ b" "staging" "t") := by
  refine ⟨?_, ?_, ?_⟩ <;> decide

/-- C9 (amended): for every device name, environment name and timestamp
(over the ASCII alphabet, where Python's `\W` is exactly the complement of
`[A-Za-z0-9_]`), the sanitized filename contains only characters in
`[A-Za-z0-9_]` (the `.png` extension apart), and it is the input with every
maximal run of characters OUTSIDE `[A-Za-z0-9_]` — rather than of
non-alphanumeric characters — collapsed to a single underscore; in
particular the claim's concrete instance (device `"Galaxy S5"`, environment
`"staging"`, a timestamp with colons, spaces and periods) sanitizes as
expected. -/
theorem c9_filename_sanitized (device environment timestamp : String) :
    (∀ c ∈ (re_sub_nonword (mkFilename device environment timestamp)).data, isWordChar c) ∧
    (re_sub_nonword (mkFilename device environment timestamp)).data =
      specCollapseNonWord (mkFilename device environment timestamp).data ∧
    screenshot_filename "Galaxy S5" "staging" "2024-10-12 13:45:07.123456" =
      "Galaxy_S5_staging_2024_10_12_13_45_07_123456.png" := by
  refine ⟨?_, ?_, ?_⟩
  · exact subNonWordAux_chars false _
  · exact (subNonWordAux_eq_spec _).1
  · decide

/-- C10: because `--is_local` is a store-true option whose default is
already `True`, every invocation (flag present or absent) yields
`is_local = True`; hence the driver fixture always starts the browser with
`is_headless = False`, the Chrome options never receive `--headless`, and
the headless configuration branch is unreachable from the command-line
surface. -/
theorem c10_headless_branch_unreachable (flagPresent : Bool) (device : Option String)
    (url dev : String) (body : M Unit) :
    is_local_option flagPresent = true ∧
    (chrome_options (!(is_local_option flagPresent)) device).arguments = [] ∧
    "--headless" ∉ (chrome_options (!(is_local_option flagPresent)) device).arguments ∧
    (driver_fixture url flagPresent dev body).2.head? =
      some (Event.browserStart false dev) := by
  cases flagPresent <;> exact ⟨rfl, rfl, by simp [chrome_options, is_local_option, storeTrueValue], rfl⟩

end Twitch
